import Mathlib

/-!
Verification of the FS Madame de Pompadour simulation.

The repository ships the React frontend (EventBox.tsx, CharacterWindow.tsx,
App.tsx).  The Flask turn engine it talks to is not part of the sources, so
the engine side (actor roster, action catalog, selector, generative
fallback, turn loop) is modelled from the specification, while the frontend
handlers are translated directly from the TypeScript sources.
-/

/-! ## JSON values

A small model of the JSON objects exchanged between the frontend and the
backend, used to state which keys each handler actually reads. -/

inductive Json where
  | str (s : String)
  | bool (b : Bool)
  | num (n : Int)
  | arr (xs : List Json)
  | obj (fields : List (String × Json))
  | null

/-- Look up a key in a JSON object; `none` on missing key or non-object. -/
def jsonGet (j : Json) (key : String) : Option Json :=
  match j with
  | Json.obj fields =>
      match fields.find? (fun p => p.1 = key) with
      | some p => some p.2
      | none => none
  | _ => none

/-! ## The turn response consumed by EventBox.runTurn

EventBox.tsx declares the response of GET /action as
`debug: boolean; body: string; status: number` and reads `json.body` and
`json.debug`. -/

structure TurnResponseJson where
  debug : Bool
  body : String
  status : Int
deriving Repr, DecidableEq

/-- The JSON object carrying a turn response, with the keys the frontend
declares and reads in EventBox.tsx. -/
def encodeTurnResponse (r : TurnResponseJson) : Json :=
  Json.obj [("debug", Json.bool r.debug), ("body", Json.str r.body),
            ("status", Json.num r.status)]

/-- A turn response object shaped the way the specification names the
fields: a `text` string and a `wasGenerative` boolean. -/
def specShapedTurnResponse (text : String) (wasGenerative : Bool) : Json :=
  Json.obj [("text", Json.str text), ("wasGenerative", Json.bool wasGenerative)]

/-! ## EventBox.runTurn

One execution of the `runTurn` click handler (EventBox.tsx lines 122-171).
The handler performs a GET /action fetch, appends the body on success,
then performs a TTS request; any throw lands in the catch block, which
appends a system-error line unless the `debug` flag of an already parsed
response was true.  The external interactions are summarized by the
outcome the environment produces. -/

inductive TurnFetchOutcome where
  | fetchError (msg : String)
  | badStatus (code : Int)
  | parseError (msg : String)
  | ttsError (resp : TurnResponseJson) (msg : String)
  | ok (resp : TurnResponseJson)
deriving Repr, DecidableEq

/-- The dialogue line the catch block appends (EventBox.tsx line 168). -/
def systemErrorLine (msg : String) : String :=
  "[SYSTEM ERROR] Action failed: " ++ msg

/-- The `dialogues` state after one `runTurn` execution with the given
outcome, translated from EventBox.tsx lines 134-170: `debug` starts false,
a successful parse appends `json.body` and stores `json.debug`, a later
TTS failure reaches the catch block where the error line is appended only
when `debug` is false. -/
def runTurn (dialogues : List String) (o : TurnFetchOutcome) : List String :=
  match o with
  | TurnFetchOutcome.fetchError msg => dialogues ++ [systemErrorLine msg]
  | TurnFetchOutcome.badStatus code =>
      dialogues ++ [systemErrorLine ("Response status: " ++ toString code)]
  | TurnFetchOutcome.parseError msg => dialogues ++ [systemErrorLine msg]
  | TurnFetchOutcome.ttsError resp msg =>
      if resp.debug then dialogues ++ [resp.body]
      else dialogues ++ [resp.body, systemErrorLine msg]
  | TurnFetchOutcome.ok resp => dialogues ++ [resp.body]

/-- The initial `dialogues` state (EventBox.tsx lines 77-79). -/
def initialDialogues : List String :=
  ["Booting simulation... Welcome to the FS Madame de Pompadour."]

/-- Whether an outcome makes some step of `runTurn` throw. -/
def stepFailed (o : TurnFetchOutcome) : Bool :=
  match o with
  | TurnFetchOutcome.ok _ => false
  | _ => true

/-- The value held by the `debug` variable of the handler at the moment the
catch block runs: false until the /action response is parsed, then the parsed
flag. -/
def debugReceived (o : TurnFetchOutcome) : Bool :=
  match o with
  | TurnFetchOutcome.ttsError resp _ => resp.debug
  | TurnFetchOutcome.ok resp => resp.debug
  | _ => false

/-! ## CharacterWindow.getCharInfo

One execution of `getCharInfo` (CharacterWindow.tsx lines 25-54).  The
component state consists of the four detail fields plus the loading flag.
The handler reads the keys `personality`, `backstory`, `wants`, `fears`
of the parsed details object. -/

structure CharState where
  personality : String
  backstory : String
  wants : List String
  fears : List String
  isLoading : Bool
deriving Repr, DecidableEq

/-- The details object as consumed by CharacterWindow.tsx lines 41-44;
each field may be absent (undefined) in the loosely typed response. -/
structure CharacterDetailsResp where
  personality : Option (List String)
  backstory : Option String
  wants : Option (List String)
  fears : Option (List String)
deriving Repr, DecidableEq

/-- The JSON object carrying the details response, with the keys the
frontend reads in CharacterWindow.tsx. -/
def encodeDetails (d : CharacterDetailsResp) : Json :=
  Json.obj
    ((match d.personality with
      | some l => [("personality", Json.arr (l.map Json.str))]
      | none => []) ++
     (match d.backstory with
      | some s => [("backstory", Json.str s)]
      | none => []) ++
     (match d.wants with
      | some l => [("wants", Json.arr (l.map Json.str))]
      | none => []) ++
     (match d.fears with
      | some l => [("fears", Json.arr (l.map Json.str))]
      | none => []))

/-- Outcome of the details fetch inside `getCharInfo`. -/
inductive DetailFetchOutcome where
  | fetchError
  | badStatus (code : Int)
  | parseError
  | ok (d : CharacterDetailsResp)
deriving Repr, DecidableEq

/-- `details.personality?.join(iv) || fallback` from CharacterWindow.tsx
line 41: an absent list and an empty joined string both fall back. -/
def joinOrNA (l : Option (List String)) : String :=
  match l with
  | some xs =>
      let s := String.intercalate ", " xs
      if s = "" then "N/A" else s
  | none => "N/A"

/-- `value || fallback` on a possibly absent string (line 42). -/
def strOrNA (s : Option String) : String :=
  match s with
  | some v => if v = "" then "N/A" else v
  | none => "N/A"

/-- `value || []` on a possibly absent list (lines 43-44). -/
def listOrEmpty (l : Option (List String)) : List String :=
  match l with
  | some xs => xs
  | none => []

/-- The component state after one `getCharInfo` run, translated from
CharacterWindow.tsx lines 25-52: loading is set true on entry; on success
the four fields are set from the response with falsy fallbacks; on any
throw the catch block sets only the personality field to the error text;
the finally block always clears the loading flag. -/
def getCharInfo (s : CharState) (o : DetailFetchOutcome) : CharState :=
  match o with
  | DetailFetchOutcome.ok d =>
      { personality := joinOrNA d.personality
        backstory := strOrNA d.backstory
        wants := listOrEmpty d.wants
        fears := listOrEmpty d.fears
        isLoading := false }
  | _ =>
      { s with personality := "Error loading details.", isLoading := false }

/-- Whether the details fetch failed (entered the catch block). -/
def detailFetchFailed (o : DetailFetchOutcome) : Bool :=
  match o with
  | DetailFetchOutcome.ok _ => false
  | _ => true

/-! ## Engine data model

Modelled from the spec: the Flask turn engine behind the /action,
/get_actors and /get_character_details endpoints is not among the
repository sources; the definitions below follow the data model and
component design of the specification (sections 3 and 4). -/

/-- Modelled from the spec: an actor of the fixed roster (spec section 3).
The engine mutates only `memory`; the other fields are immutable after
creation. -/
structure Actor where
  id : Nat
  name : String
  role : String
  personalityTraits : List String
  backstory : String
  wants : List String
  fears : List String
  memory : List Nat
deriving Repr, DecidableEq

/-- Modelled from the spec: one element of `history` (spec section 3,
TurnRecord). -/
structure TurnRecord where
  turnIndex : Nat
  actorId : Nat
  text : String
  wasGenerative : Bool
deriving Repr, DecidableEq

/-- Modelled from the spec: the shared world state (spec section 3):
append-only `history`, last-write-wins `sharedFacts`, and the fixed
actor roster. -/
structure WorldState where
  history : List TurnRecord
  sharedFacts : List (String × String)
  actors : List Actor
deriving Repr, DecidableEq

/-- A fresh world: empty history, no facts, the given roster. -/
def freshWorld (roster : List Actor) : WorldState :=
  { history := [], sharedFacts := [], actors := roster }

/-- Modelled from the spec: a scripted action template (spec section 3):
an applicability predicate, a weight function and a pure rendering
function over the actor and the world snapshot.  Target-actor
resolution (spec section 4.3 step 4) is not modelled; the templates here
are targetless. -/
structure ActionTemplate where
  tid : String
  applicability : Actor → WorldState → Bool
  weight : Actor → WorldState → Int
  render : Actor → WorldState → String

/-- Result of action selection: a scripted template or delegation to the
generative fallback. -/
inductive Selection where
  | scripted (t : ActionTemplate)
  | generative

/-- Walk a list of templates paired with their (positive) natural
weights, consuming the draw `r`; returns the template whose weight
segment contains `r`. -/
def pickByWeight (ws : List (ActionTemplate × Nat)) (r : Nat) :
    Option ActionTemplate :=
  match ws with
  | [] => none
  | (t, w) :: rest => if r < w then some t else pickByWeight rest (r - w)

/-- Modelled from the spec: the ActionSelector decision (spec section
4.3 steps 1-3): filter by applicability; on an empty applicable set or a
generative trigger delegate to the fallback; otherwise draw by weight
among the applicable templates, excluding any template whose weight is
not positive, and treat an all-nonpositive set like the empty set. -/
def selectAction (catalog : List ActionTemplate) (actor : Actor)
    (world : WorldState) (seed : Nat) (genTrigger : Bool) : Selection :=
  let applicable := catalog.filter (fun t => t.applicability actor world)
  if applicable.isEmpty || genTrigger then
    Selection.generative
  else
    let positives := applicable.filter (fun t => 0 < t.weight actor world)
    let weighted := positives.map (fun t => (t, (t.weight actor world).toNat))
    let total := (weighted.map (fun p => p.2)).sum
    match pickByWeight weighted (seed % total) with
    | some t => Selection.scripted t
    | none => Selection.generative

/-- Modelled from the spec: the opaque external text provider (spec
section 6), a fallible function from prompt to text. -/
structure GenProvider where
  call : String → Option String

/-- Modelled from the spec: maximum accepted generative output length
(spec section 4.4). -/
def maxOutputLength : Nat := 280

/-- Modelled from the spec: the bounded prompt built by the generative
fallback (spec section 4.4): role, traits and a window of recent
history. -/
def buildPrompt (actor : Actor) (world : WorldState) (k : Nat) : String :=
  actor.role ++ "|" ++ String.intercalate "," actor.personalityTraits
    ++ "|" ++ String.intercalate ";"
        (((world.history.reverse.take k).reverse).map (fun r => r.text))
    ++ "|one in-character sentence"

/-- Modelled from the spec: GenerativeFallback.generate (spec section
4.4): call the provider on the bounded prompt, reject a failed call,
empty text or overlong text. -/
def generate (p : GenProvider) (actor : Actor) (world : WorldState) :
    Option String :=
  match p.call (buildPrompt actor world 5) with
  | none => none
  | some s =>
      if s.isEmpty then none
      else if maxOutputLength < s.length then none
      else some s

/-- Modelled from the spec: the most permissive catch-all template every
roster must guarantee exists (spec section 7). -/
def catchAllTemplate : ActionTemplate :=
  { tid := "catch_all_idle"
    applicability := fun _ _ => true
    weight := fun _ _ => 1
    render := fun a _ => a.name ++ " lingers in the corridor, saying nothing." }

/-- Modelled from the spec: the fallback-of-fallback (spec section 4.4):
when generation fails, select a scripted template ignoring the
generative triggers, resorting to the catch-all template when the
catalog yields none. -/
def fallbackTemplate (catalog : List ActionTemplate) (actor : Actor)
    (world : WorldState) (seed : Nat) : ActionTemplate :=
  match selectAction catalog actor world seed false with
  | Selection.scripted t => t
  | Selection.generative => catchAllTemplate

/-- Modelled from the spec: the designated no-op line of the no-op
TurnRecord (spec section 4.5). -/
def noOpText : String := "The ship drifts on; nothing of note occurs."

/-- Modelled from the spec: per-turn configuration of the engine: the
catalog, the provider, and the pre-drawn random stream (seed and
generative-trigger draw for each turn index), making runs deterministic
given a fixed seed (spec section 4.2). -/
structure TurnConfig where
  catalog : List ActionTemplate
  provider : GenProvider
  seedAt : Nat → Nat
  genAt : Nat → Bool

/-- The value returned to the caller of one turn, together with the
successor world. -/
structure TurnResult where
  text : String
  wasGenerative : Bool
  world : WorldState

/-- Modelled from the spec: the line and generative flag one turn
produces for the given actor: a scripted render, a validated generative
line, or the fallback-of-fallback render. -/
def chosenLine (cfg : TurnConfig) (actor : Actor) (w : WorldState) :
    String × Bool :=
  match selectAction cfg.catalog actor w (cfg.seedAt w.history.length)
      (cfg.genAt w.history.length) with
  | Selection.scripted t => (t.render actor w, false)
  | Selection.generative =>
      match generate cfg.provider actor w with
      | some s => (s, true)
      | none =>
          ((fallbackTemplate cfg.catalog actor w
              (cfg.seedAt w.history.length)).render actor w, false)

/-- Modelled from the spec: the text, generative flag and acting actor id
of one turn: the acting actor is picked round-robin over the roster; an
empty roster yields the designated no-op line; empty rendered text is
replaced by the no-op line so a turn never ends without text. -/
def turnOutcome (cfg : TurnConfig) (w : WorldState) : String × Bool × Nat :=
  match w.actors[w.history.length % w.actors.length]? with
  | none => (noOpText, false, 0)
  | some actor =>
      let c := chosenLine cfg actor w
      (if c.1.isEmpty then noOpText else c.1, c.2, actor.id)

/-- Modelled from the spec: the roster after one turn: only the memory of
the acting actor is extended with the new turn index. -/
def actorsAfterTurn (w : WorldState) : List Actor :=
  match w.actors[w.history.length % w.actors.length]? with
  | none => w.actors
  | some actor =>
      w.actors.map (fun a =>
        if a.id = actor.id then { a with memory := a.memory ++ [w.history.length] }
        else a)

/-- Modelled from the spec: TurnEngine.nextTurn (spec section 4.5): run
one full turn, append exactly one record (turn index equal to the prior
history length) and return the rendered line; failures inside selection
and generation are absorbed, never surfaced. -/
def nextTurn (cfg : TurnConfig) (w : WorldState) : TurnResult :=
  { text := (turnOutcome cfg w).1,
    wasGenerative := (turnOutcome cfg w).2.1,
    world :=
      { w with
        history := w.history ++
          [{ turnIndex := w.history.length,
             actorId := (turnOutcome cfg w).2.2,
             text := (turnOutcome cfg w).1,
             wasGenerative := (turnOutcome cfg w).2.1 }],
        actors := actorsAfterTurn w } }

/-- Iterate `nextTurn` the given number of times. -/
def runTurns (cfg : TurnConfig) (w : WorldState) : Nat → WorldState
  | 0 => w
  | Nat.succ n => (nextTurn cfg (runTurns cfg w n)).world

/-! ## Backend query handlers (modelled from the spec) -/

/-- Result of the actor detail query. -/
inductive DetailQueryResult where
  | ok (personality : List String) (backstory : String)
      (wants : List String) (fears : List String)
  | notFound
deriving Repr, DecidableEq

/-- Modelled from the spec: the /get_character_details handler (spec
sections 4.2 and 6): look the id up in the fixed roster, answer the four
read-only detail fields, fail with NotFound on an unknown id; the query
never mutates the world, which is returned unchanged. -/
def getCharacterDetails (w : WorldState) (idNum : Nat) :
    DetailQueryResult × WorldState :=
  match w.actors.find? (fun a => a.id = idNum) with
  | some a => (DetailQueryResult.ok a.personalityTraits a.backstory a.wants a.fears, w)
  | none => (DetailQueryResult.notFound, w)

/-- Modelled from the spec: the /get_actors handler over the registry
`all()` (spec sections 4.2 and 6): an ordered id-to-name mapping in
roster order, independent of the request. -/
def getActors (w : WorldState) (_requestId : Nat) : List (String × String) :=
  w.actors.map (fun a => (toString a.id, a.name))

/-- One entry of the character list kept by EventBox. -/
structure CharacterEntry where
  id : String
  name : String
deriving Repr, DecidableEq

/-- The list built by `loadCharacterList` from the response body
(EventBox.tsx lines 96-99): each key/value pair of the mapping becomes an
id/name entry, in order. -/
def loadCharacterList (body : List (String × String)) : List CharacterEntry :=
  body.map (fun p => { id := p.1, name := p.2 })

/-! ## Helper projections -/

/-- The parsed /action body in scope when the catch block runs, if any. -/
def bodyOf (o : TurnFetchOutcome) : Option String :=
  match o with
  | TurnFetchOutcome.ttsError resp _ => some resp.body
  | TurnFetchOutcome.ok resp => some resp.body
  | _ => none

/-- The four actor fields the spec declares immutable after creation. -/
def immutableFields (a : Actor) : List String × String × List String × List String :=
  (a.personalityTraits, a.backstory, a.wants, a.fears)

/-! ## Concrete sample data, used to instantiate the theorems -/

def sampleActor : Actor :=
  { id := 3, name := "Sonny", role := "technician",
    personalityTraits := ["stoic", "curious"],
    backstory := "Grew up on the lower decks.",
    wants := ["a quiet shift"], fears := ["the void"], memory := [] }

def sampleWorld : WorldState := freshWorld [sampleActor]

/-- A template of weight zero, applicable everywhere. -/
def zeroWeightTemplate : ActionTemplate :=
  { tid := "zero", applicability := fun _ _ => true,
    weight := fun _ _ => 0,
    render := fun _ _ => "stares at the bulkhead" }

/-- A template of weight three, applicable everywhere. -/
def posWeightTemplate : ActionTemplate :=
  { tid := "pos", applicability := fun _ _ => true,
    weight := fun _ _ => 3,
    render := fun a _ => a.name ++ " checks the conduits." }

def sampleTurnResponse : TurnResponseJson :=
  { debug := false, body := "Sonny checks the conduits.", status := 200 }

def sampleDetails : CharacterDetailsResp :=
  { personality := some ["stoic", "curious"],
    backstory := some "Grew up on the lower decks.",
    wants := some ["a quiet shift"], fears := some ["the void"] }

def sampleCharState : CharState :=
  { personality := "stoic, curious", backstory := "Grew up on the lower decks.",
    wants := ["a quiet shift"], fears := ["the void"], isLoading := true }

/-! ## Auxiliary lemmas -/

theorem ne_empty_of_isEmpty_false (s : String) (h : s.isEmpty = false) :
    s ≠ "" := by
  intro he
  subst he
  exact absurd h (by decide)

theorem ite_isEmpty_ne_empty (s : String) :
    (if s.isEmpty then noOpText else s) ≠ "" := by
  by_cases h : s.isEmpty
  · rw [if_pos h]
    decide
  · rw [if_neg h]
    exact ne_empty_of_isEmpty_false s (by simpa using h)

theorem nextTurn_world_history (cfg : TurnConfig) (w : WorldState) :
    ∃ r : TurnRecord, (nextTurn cfg w).world.history = w.history ++ [r] ∧
      r.turnIndex = w.history.length :=
  ⟨_, rfl, rfl⟩

theorem nextTurn_history_length (cfg : TurnConfig) (w : WorldState) :
    (nextTurn cfg w).world.history.length = w.history.length + 1 := by
  obtain ⟨r, hr, _⟩ := nextTurn_world_history cfg w
  simp [hr]

theorem nextTurn_preserves_actor_fields (cfg : TurnConfig) (w : WorldState) :
    (nextTurn cfg w).world.actors.map immutableFields
      = w.actors.map immutableFields := by
  show (actorsAfterTurn w).map immutableFields = w.actors.map immutableFields
  cases h : w.actors[w.history.length % w.actors.length]? with
  | none => simp [actorsAfterTurn, h]
  | some actor =>
      simp only [actorsAfterTurn, h, List.map_map]
      apply List.map_congr_left
      intro a _
      by_cases ha : a.id = actor.id <;> simp [immutableFields, ha]

theorem runTurns_fresh_history (cfg : TurnConfig) (roster : List Actor)
    (n : Nat) :
    (runTurns cfg (freshWorld roster) n).history.length = n ∧
    (runTurns cfg (freshWorld roster) n).history.map TurnRecord.turnIndex
      = List.range n := by
  induction n with
  | zero => exact ⟨rfl, rfl⟩
  | succ n ih =>
      obtain ⟨hlen, hidx⟩ := ih
      obtain ⟨r, hr, hri⟩ :=
        nextTurn_world_history cfg (runTurns cfg (freshWorld roster) n)
      constructor
      · rw [runTurns, hr]
        simp [hlen]
      · rw [runTurns, hr, List.map_append, hidx, List.range_succ]
        simp [hri, hlen]

theorem runTurns_history_extend (cfg : TurnConfig) (w : WorldState)
    (n k : Nat) :
    ∃ t, (runTurns cfg w n).history ++ t = (runTurns cfg w (n + k)).history := by
  induction k with
  | zero => exact ⟨[], by simp⟩
  | succ k ih =>
      obtain ⟨t, ht⟩ := ih
      obtain ⟨r, hr, _⟩ := nextTurn_world_history cfg (runTurns cfg w (n + k))
      refine ⟨t ++ [r], ?_⟩
      rw [show n + (k + 1) = (n + k) + 1 from rfl, runTurns, hr, ← ht]
      simp

/-! ## Claim theorems -/

/-- C1: every call of `nextTurn` completes with non-empty rendered text,
for every configuration (catalog, provider, random stream) and every
world, including the case where no template is applicable and the
provider fails; `nextTurn` is a total function, so no failure inside
action selection or generation reaches the caller. -/
theorem c1_turn_always_produces_text (cfg : TurnConfig) (w : WorldState) :
    (nextTurn cfg w).text ≠ "" := by
  show (turnOutcome cfg w).1 ≠ ""
  cases h : w.actors[w.history.length % w.actors.length]? with
  | none =>
      simp only [turnOutcome, h]
      decide
  | some actor =>
      simp only [turnOutcome, h]
      exact ite_isEmpty_ne_empty (chosenLine cfg actor w).1

/-- C2: after N completed turns from a fresh world the history has
exactly N records, the turn indices are 0, 1, ..., N-1 in order (strictly
increasing, no gaps), and the history after N turns is an initial segment
of the history after any further K turns, so no appended record is ever
removed or rewritten. -/
theorem c2_history_append_only (cfg : TurnConfig) (roster : List Actor)
    (n k : Nat) :
    (runTurns cfg (freshWorld roster) n).history.length = n ∧
    (runTurns cfg (freshWorld roster) n).history.map TurnRecord.turnIndex
      = List.range n ∧
    ∃ t, (runTurns cfg (freshWorld roster) n).history ++ t
      = (runTurns cfg (freshWorld roster) (n + k)).history := by
  obtain ⟨hlen, hidx⟩ := runTurns_fresh_history cfg roster n
  exact ⟨hlen, hidx, runTurns_history_extend cfg (freshWorld roster) n k⟩

/-- C3 counterexample: the /action response object, in the shape the
frontend declares and consumes (EventBox.tsx lines 144-146), carries no
`text` and no `wasGenerative` key at the concrete response whose body is
"Sonny checks the conduits.": the keys are `body`, `debug` and
`status`. -/
theorem c3_turn_response_fields_counterexample :
    jsonGet (encodeTurnResponse sampleTurnResponse) "text" = none ∧
    jsonGet (encodeTurnResponse sampleTurnResponse) "wasGenerative" = none ∧
    jsonGet (specShapedTurnResponse "Sonny checks the conduits." false) "body"
      = none := by
  refine ⟨rfl, rfl, rfl⟩

/-- C3 amended: the turn response is an object whose `body` key carries
the rendered text and whose `debug` key carries the generative/debug
flag (what the specification calls `text` and `wasGenerative`, under the
key names the code uses),
and each turn request advances the simulation by exactly one turn: the
history grows by exactly one record per call, so the request is not
idempotent. -/
theorem c3_turn_request_contract (r : TurnResponseJson) (cfg : TurnConfig)
    (w : WorldState) :
    jsonGet (encodeTurnResponse r) "body" = some (Json.str r.body) ∧
    jsonGet (encodeTurnResponse r) "debug" = some (Json.bool r.debug) ∧
    (nextTurn cfg w).world.history.length = w.history.length + 1 := by
  exact ⟨rfl, rfl, nextTurn_history_length cfg w⟩

/-- C6: the four immutable actor fields (personalityTraits, backstory,
wants, fears) of every actor of the roster are identical before and
after any number of turns; the engine touches only the actor memories. -/
theorem c6_actor_fields_immutable (cfg : TurnConfig) (w : WorldState)
    (n : Nat) :
    (runTurns cfg w n).actors.map immutableFields
      = w.actors.map immutableFields := by
  induction n with
  | zero => rfl
  | succ n ih => rw [runTurns, nextTurn_preserves_actor_fields, ih]

/-- C7: the actor list query is deterministic across requests: two
invocations against the same roster produce the same character list in
the same order, and the id order reported is exactly the roster order. -/
theorem c7_actor_list_order_stable (w : WorldState) (q1 q2 : Nat) :
    loadCharacterList (getActors w q1) = loadCharacterList (getActors w q2) ∧
    (getActors w q1).map Prod.fst = w.actors.map (fun a => toString a.id) := by
  constructor
  · rfl
  · simp [getActors, List.map_map]

theorem pickByWeight_mem (ws : List (ActionTemplate × Nat)) (r : Nat)
    (t : ActionTemplate) (h : pickByWeight ws r = some t) :
    ∃ wn, (t, wn) ∈ ws := by
  induction ws generalizing r with
  | nil => cases h
  | cons p rest ih =>
      obtain ⟨pt, pw⟩ := p
      rw [pickByWeight] at h
      by_cases hr : r < pw
      · rw [if_pos hr] at h
        injection h with h
        subst h
        exact ⟨pw, List.mem_cons_self _ _⟩
      · rw [if_neg hr] at h
        obtain ⟨wn, hwn⟩ := ih _ h
        exact ⟨wn, List.mem_cons_of_mem _ hwn⟩

theorem runTurn_extends (d : List String) (o : TurnFetchOutcome) :
    ∃ t, runTurn d o = d ++ t := by
  cases o with
  | fetchError m => exact ⟨_, rfl⟩
  | badStatus c => exact ⟨_, rfl⟩
  | parseError m => exact ⟨_, rfl⟩
  | ttsError resp m =>
      by_cases hd : resp.debug
      · exact ⟨[resp.body], by simp [runTurn, hd]⟩
      · exact ⟨[resp.body, systemErrorLine m], by simp [runTurn, hd]⟩
  | ok resp => exact ⟨_, rfl⟩

theorem foldl_runTurn_extends (os : List TurnFetchOutcome) (d : List String) :
    ∃ t, os.foldl runTurn d = d ++ t := by
  induction os generalizing d with
  | nil => exact ⟨[], by simp⟩
  | cons o os ih =>
      obtain ⟨t1, h1⟩ := runTurn_extends d o
      obtain ⟨t2, h2⟩ := ih (runTurn d o)
      exact ⟨t1 ++ t2, by rw [List.foldl_cons, h2, h1, List.append_assoc]⟩

/-- C4 counterexample: the details object, in the shape the frontend
reads (CharacterWindow.tsx line 41), carries no `personalityTraits` key
at the concrete response for the sample actor: the key the code reads is
`personality`. -/
theorem c4_detail_fields_counterexample :
    jsonGet (encodeDetails sampleDetails) "personalityTraits" = none := by
  rfl

/-- C4 amended: the actor detail query answers an object with keys
`personality` (list of strings), `backstory` (string), `wants` and
`fears` (lists of strings); an unknown id yields NotFound and leaves the
world, hence the history, unchanged; a known id yields the four read-only
fields of the actor, also leaving the world unchanged. -/
theorem c4_detail_query (p : List String) (b : String) (wl fl : List String)
    (w : WorldState) (idNum : Nat) :
    (jsonGet (encodeDetails ⟨some p, some b, some wl, some fl⟩) "personality"
        = some (Json.arr (p.map Json.str)) ∧
      jsonGet (encodeDetails ⟨some p, some b, some wl, some fl⟩) "backstory"
        = some (Json.str b) ∧
      jsonGet (encodeDetails ⟨some p, some b, some wl, some fl⟩) "wants"
        = some (Json.arr (wl.map Json.str)) ∧
      jsonGet (encodeDetails ⟨some p, some b, some wl, some fl⟩) "fears"
        = some (Json.arr (fl.map Json.str))) ∧
    ((∀ a ∈ w.actors, a.id ≠ idNum) →
      getCharacterDetails w idNum = (DetailQueryResult.notFound, w)) ∧
    (∀ a, w.actors.find? (fun x => x.id = idNum) = some a →
      getCharacterDetails w idNum
        = (DetailQueryResult.ok a.personalityTraits a.backstory a.wants a.fears,
            w)) := by
  refine ⟨⟨rfl, rfl, rfl, rfl⟩, ?_, ?_⟩
  · intro h
    have hn : w.actors.find? (fun a => a.id = idNum) = none := by
      rw [List.find?_eq_none]
      intro a ha
      simpa using h a ha
    simp [getCharacterDetails, hn]
  · intro a ha
    simp [getCharacterDetails, ha]

/-- Witness for the C4 theorem at the sample world: id 99 is unknown and
rejected with the world untouched; id 3 answers the four fields of Sonny. -/
theorem c4_detail_query_witness :
    getCharacterDetails sampleWorld 99 = (DetailQueryResult.notFound, sampleWorld) ∧
    getCharacterDetails sampleWorld 3
      = (DetailQueryResult.ok ["stoic", "curious"] "Grew up on the lower decks."
          ["a quiet shift"] ["the void"], sampleWorld) := by
  constructor
  · exact (c4_detail_query [] "" [] [] sampleWorld 99).2.1 (by decide)
  · exact (c4_detail_query [] "" [] [] sampleWorld 3).2.2 sampleActor (by decide)

/-- C5: in the action selector, a template chosen by the weighted draw
always has positive weight for the actor and world snapshot (weight at
most 0 is excluded from the draw), and when every applicable template
has weight at most 0 the selector returns the generative fallback,
exactly as in the empty-applicable-set case. -/
theorem c5_zero_weight_excluded (catalog : List ActionTemplate) (actor : Actor)
    (world : WorldState) (seed : Nat) (g : Bool) :
    (∀ t, selectAction catalog actor world seed g = Selection.scripted t →
        0 < t.weight actor world) ∧
    ((∀ t ∈ catalog.filter (fun t => t.applicability actor world),
        t.weight actor world ≤ 0) →
      selectAction catalog actor world seed g = Selection.generative) := by
  constructor
  · intro t h
    simp only [selectAction] at h
    split at h
    · exact Selection.noConfusion h
    · split at h
      · rename_i t2 hpick
        injection h with heq
        subst heq
        obtain ⟨wn, hmem⟩ := pickByWeight_mem _ _ _ hpick
        rw [List.mem_map] at hmem
        obtain ⟨x, hx, hfx⟩ := hmem
        have hxt : x = t2 := congrArg Prod.fst hfx
        subst hxt
        have hfilter := List.of_mem_filter hx
        simpa using hfilter
      · exact Selection.noConfusion h
  · intro hw
    simp only [selectAction]
    split
    · rfl
    · have hpos : List.filter (fun t => decide (0 < t.weight actor world))
          (List.filter (fun t => t.applicability actor world) catalog) = [] := by
        rw [List.filter_eq_nil_iff]
        intro a ha
        simpa using hw a ha
      rw [hpos]
      rfl

/-- Witness for the C5 theorem: a weight-3 template is chosen and indeed
has positive weight; a catalog whose only applicable template has weight
0 sends the selector to the generative fallback. -/
theorem c5_zero_weight_excluded_witness :
    0 < posWeightTemplate.weight sampleActor sampleWorld ∧
    selectAction [zeroWeightTemplate] sampleActor sampleWorld 7 false
      = Selection.generative := by
  constructor
  · exact (c5_zero_weight_excluded [posWeightTemplate] sampleActor sampleWorld 0
      false).1 posWeightTemplate rfl
  · exact (c5_zero_weight_excluded [zeroWeightTemplate] sampleActor sampleWorld 7
      false).2 (by decide)

/-- C8: on every execution path of EventBox.runTurn the dialogue list is
only ever extended at the end (the previous list is an initial segment
of the new one), and over any sequence of runs starting from the initial
state the welcome entry stays the first element. -/
theorem c8_dialogues_append_only (d : List String) (o : TurnFetchOutcome)
    (os : List TurnFetchOutcome) :
    (∃ t, runTurn d o = d ++ t) ∧
    (os.foldl runTurn initialDialogues).head?
      = some "Booting simulation... Welcome to the FS Madame de Pompadour." := by
  refine ⟨runTurn_extends d o, ?_⟩
  obtain ⟨t, ht⟩ := foldl_runTurn_extends os initialDialogues
  rw [ht]
  rfl

/-- C9: provided no parsed body is itself formatted as a system-error
line, a run of EventBox.runTurn appends a system-error line exactly when
some step failed and the debug flag in scope at the catch block is
false: failures before the /action parse always append the line (debug
starts false), while failures after a response with debug true append
nothing. -/
theorem c9_error_line_iff (d : List String) (o : TurnFetchOutcome)
    (hclean : ∀ msg, bodyOf o ≠ some (systemErrorLine msg)) :
    ((∃ msg, systemErrorLine msg ∈ (runTurn d o).drop d.length) ↔
      (stepFailed o = true ∧ debugReceived o = false)) := by
  cases o with
  | fetchError m =>
      constructor
      · intro _
        exact ⟨rfl, rfl⟩
      · intro _
        exact ⟨m, by simp [runTurn, List.drop_left]⟩
  | badStatus c =>
      constructor
      · intro _
        exact ⟨rfl, rfl⟩
      · intro _
        exact ⟨"Response status: " ++ toString c, by simp [runTurn, List.drop_left]⟩
  | parseError m =>
      constructor
      · intro _
        exact ⟨rfl, rfl⟩
      · intro _
        exact ⟨m, by simp [runTurn, List.drop_left]⟩
  | ttsError resp m =>
      have hb : ∀ msg, resp.body ≠ systemErrorLine msg := by
        intro msg hmsg
        exact hclean msg (by simp [bodyOf, hmsg])
      by_cases hd : resp.debug
      · constructor
        · rintro ⟨msg, hm⟩
          rw [runTurn, if_pos hd, List.drop_left] at hm
          rw [List.mem_singleton] at hm
          exact absurd hm.symm (hb msg)
        · rintro ⟨_, h2⟩
          rw [debugReceived, hd] at h2
          cases h2
      · constructor
        · intro _
          exact ⟨rfl, by simp [debugReceived, hd]⟩
        · intro _
          refine ⟨m, ?_⟩
          rw [runTurn, if_neg hd, List.drop_left]
          simp
  | ok resp =>
      have hb : ∀ msg, resp.body ≠ systemErrorLine msg := by
        intro msg hmsg
        exact hclean msg (by simp [bodyOf, hmsg])
      constructor
      · rintro ⟨msg, hm⟩
        rw [runTurn, List.drop_left, List.mem_singleton] at hm
        exact absurd hm.symm (hb msg)
      · rintro ⟨h1, _⟩
        cases h1

/-- Witness for the C9 theorem at a failed /action fetch from the
initial state: the error line is appended (the failure precedes the
parse, so debug is still false). -/
theorem c9_error_line_iff_witness :
    ((∃ msg, systemErrorLine msg ∈
        (runTurn initialDialogues
          (TurnFetchOutcome.fetchError "network down")).drop
          initialDialogues.length) ↔
      (stepFailed (TurnFetchOutcome.fetchError "network down") = true ∧
        debugReceived (TurnFetchOutcome.fetchError "network down") = false)) :=
  c9_error_line_iff initialDialogues (TurnFetchOutcome.fetchError "network down")
    (fun msg h => by simp [bodyOf] at h)

/-- C10: every run of getCharInfo ends with the loading flag cleared,
whatever the fetch outcome; on a failed run the personality field is set
to the error text while backstory, wants and fears keep their previous
values. -/
theorem c10_loading_cleared (s : CharState) (o : DetailFetchOutcome) :
    (getCharInfo s o).isLoading = false ∧
    (detailFetchFailed o = true →
      (getCharInfo s o).personality = "Error loading details." ∧
      (getCharInfo s o).backstory = s.backstory ∧
      (getCharInfo s o).wants = s.wants ∧
      (getCharInfo s o).fears = s.fears) := by
  cases o <;> simp [getCharInfo, detailFetchFailed]

/-- Witness for the C10 theorem at a failed fetch from the sample
component state. -/
theorem c10_loading_cleared_witness :
    (getCharInfo sampleCharState DetailFetchOutcome.fetchError).isLoading
      = false ∧
    (getCharInfo sampleCharState DetailFetchOutcome.fetchError).personality
      = "Error loading details." ∧
    (getCharInfo sampleCharState DetailFetchOutcome.fetchError).backstory
      = "Grew up on the lower decks." := by
  have h := c10_loading_cleared sampleCharState DetailFetchOutcome.fetchError
  exact ⟨h.1, (h.2 rfl).1, (h.2 rfl).2.1⟩
